import Mathlib

/-!
Shallow embedding of `diarize_audio.py` (speaker-diarization CLI wrapper).

The script has three functions:
  * `convert_to_wav` shells out to ffmpeg to produce a mono 16 kHz WAV in a
    fresh temporary file; on a non-zero ffmpeg exit it unlinks the temporary
    file and raises a `RuntimeError` naming the input path.
  * `diarize_audio` lowercases the extension of the input; for non-`.wav` inputs it
    converts first, then loads the pretrained pipeline, runs inference,
    builds segment records with times rounded to two decimals, prints the
    distinct (sorted) speakers and the per-turn lines, and finally unlinks
    the temporary file (only on this success path — there is no try/finally).
  * `main` parses one positional argument and an optional `--hf_token` flag
    falling back to the `HF_TOKEN` environment variable, validates the file
    and the token, and maps any exception from processing to exit code 1.

Modelling conventions: the external world (ffmpeg exit status, pipeline load
and inference success, and the track list the pipeline would return) is an
explicit `Env`. Exceptions are `Except`. Filesystem effects on temporary
files are an explicit operation log (`FsOp`). Standard output and standard
error are lists of lines; a Python `print` of a string containing `\n`
contributes one line per fragment. Python `float` times are modelled as
exact rationals, with `round(x, 2)` modelled as round-half-to-even at two
decimal places (exact on the decimal inputs the claims use), and the float
`repr` for such two-decimal values modelled by `fmtFloat2`.
-/

/-- Last index at which character `c` occurs in `cs`, scanning from offset `i`. -/
def lastIdxOfAux (c : Char) : List Char → Nat → Option Nat
  | [], _ => none
  | ch :: rest, i =>
    match lastIdxOfAux c rest (i + 1) with
    | some j => some j
    | none => if ch = c then some i else none

/-- Last index at which character `c` occurs in `cs` (Python `str.rfind`). -/
def lastIdxOf (c : Char) (cs : List Char) : Option Nat :=
  lastIdxOfAux c cs 0

/-- Model of `os.path.splitext` (posix): split at the last dot that lies after
the last `/` and is preceded, within the basename, by some non-dot character;
otherwise the extension is empty. -/
def splitext (p : String) : String × String :=
  let cs := p.data
  let sepPlus1 : Nat :=
    match lastIdxOf '/' cs with
    | some i => i + 1
    | none => 0
  match lastIdxOf '.' cs with
  | none => (p, "")
  | some d =>
    if sepPlus1 ≤ d ∧ ((cs.drop sepPlus1).take (d - sepPlus1)).any (fun ch => ch ≠ '.') then
      (String.mk (cs.take d), String.mk (cs.drop d))
    else (p, "")

/-- Model of Python `str.lower` (ASCII case folding suffices here). -/
def lowerStr (s : String) : String :=
  String.mk (s.data.map Char.toLower)

/-- Round-half-to-even to the nearest integer, the rounding Python `round`
performs on exact values. -/
def roundHalfEven (q : ℚ) : ℤ :=
  let f := ⌊q⌋
  let r := q - (f : ℚ)
  if r < 1 / 2 then f
  else if 1 / 2 < r then f + 1
  else if f % 2 = 0 then f else f + 1

/-- Model of Python `round(x, 2)` on an exact rational. -/
def round2 (q : ℚ) : ℚ :=
  (roundHalfEven (q * 100) : ℚ) / 100

/-- Render `c` hundredths the way Python `repr` renders the float `c/100`:
minimal digits, at least one digit after the point (`0.0`, `3.5`, `3.25`). -/
def fmtCenti (c : ℤ) : String :=
  let sign := if c < 0 then "-" else ""
  let a := c.natAbs
  let ip := a / 100
  let frac := a % 100
  if frac = 0 then sign ++ Nat.repr ip ++ ".0"
  else if frac % 10 = 0 then sign ++ Nat.repr ip ++ "." ++ Nat.repr (frac / 10)
  else if frac < 10 then sign ++ Nat.repr ip ++ ".0" ++ Nat.repr frac
  else sign ++ Nat.repr ip ++ "." ++ Nat.repr frac

/-- Render a rational with at most two decimal places the way Python
`repr` renders the corresponding float. -/
def fmtFloat2 (q : ℚ) : String :=
  fmtCenti ⌊q * 100⌋

/-- One filesystem effect on a temporary file: creation
(`tempfile.NamedTemporaryFile(delete=False)`) or deletion (`os.unlink`). -/
inductive FsOp where
  | create : String → FsOp
  | delete : String → FsOp
deriving DecidableEq, Repr

/-- Files that remain on disk after replaying an operation log. -/
def liveFiles (ops : List FsOp) : List String :=
  ops.foldl
    (fun acc op =>
      match op with
      | FsOp.create p => acc ++ [p]
      | FsOp.delete p => acc.erase p)
    []

/-- One `(turn, _, speaker)` item yielded by
`diarization.itertracks(yield_label=True)`: raw pipeline output. -/
structure Turn where
  speaker : String
  start : ℚ
  stop : ℚ
deriving DecidableEq, Repr

/-- One element of the `segments` list built by `diarize_audio`; `stop` models
the dict key `"end"` (a Lean keyword). -/
structure Segment where
  speaker : String
  start : ℚ
  stop : ℚ
deriving DecidableEq, Repr

/-- The external world of one run: the name `tempfile` hands out, whether the
ffmpeg subprocess exits zero, whether `Pipeline.from_pretrained` and the
inference call succeed, and the tracks the pipeline yields. -/
structure Env where
  tmpName : String
  ffmpegOk : Bool
  loadOk : Bool
  inferOk : Bool
  tracks : List Turn
deriving DecidableEq, Repr

/-- The fixed ffmpeg invocation (`-y -i input -ac 1 -ar 16000 -vn tmp`). -/
def ffmpegCmd (input_path tmp_wav_path : String) : List String :=
  ["ffmpeg", "-y", "-i", input_path, "-ac", "1", "-ar", "16000", "-vn", tmp_wav_path]

/-- Embedding of `convert_to_wav`: create a temporary WAV file, run ffmpeg;
on `CalledProcessError` unlink the temporary file and raise a `RuntimeError`
naming the input path; otherwise return the temporary path. The second
component is the log of temporary-file operations. -/
def convert_to_wav (env : Env) (input_path : String) :
    Except String String × List FsOp :=
  if env.ffmpegOk then
    (Except.ok env.tmpName, [FsOp.create env.tmpName])
  else
    (Except.error ("ffmpeg failed to convert " ++ input_path ++ " to WAV"),
     [FsOp.create env.tmpName, FsOp.delete env.tmpName])

/-- The segment record built from one yielded track:
`{"speaker": speaker, "start": round(turn.start, 2), "end": round(turn.end, 2)}`. -/
def mkSegment (t : Turn) : Segment :=
  { speaker := t.speaker, start := round2 t.start, stop := round2 t.stop }

/-- The per-turn output line `  <speaker>: <start>s – <end>s`. -/
def segLine (s : Segment) : String :=
  "  " ++ s.speaker ++ ": " ++ fmtFloat2 s.start ++ "s – " ++ fmtFloat2 s.stop ++ "s"

/-- Model of Python `", ".join`/string joining with a separator. -/
def joinSep (sep : String) : List String → String
  | [] => ""
  | [x] => x
  | x :: y :: rest => x ++ sep ++ joinSep sep (y :: rest)

/-- Lexicographic comparison of character lists by Unicode code point, the
order Python `sorted` uses on strings. -/
def charsLe : List Char → List Char → Bool
  | [], _ => true
  | _ :: _, [] => false
  | a :: as, b :: bs =>
    if a.toNat < b.toNat then true
    else if b.toNat < a.toNat then false
    else charsLe as bs

/-- String comparison by code points, as Python `sorted` orders strings. -/
def strLe (a b : String) : Bool :=
  charsLe a.data b.data

/-- The comparison as a (decidable) relation. -/
def strLeP (a b : String) : Prop :=
  strLe a b = true

instance : DecidableRel strLeP :=
  fun a b => instDecidableEqBool (strLe a b) true

/-- Model of Python `sorted` on a list of strings (code-point order). -/
def pySorted (l : List String) : List String :=
  List.insertionSort strLeP l

/-- `sorted({seg["speaker"] for seg in segments})`: the distinct speaker
labels in ascending order. -/
def speakersOf (segments : List Segment) : List String :=
  pySorted (segments.map Segment.speaker).dedup

/-- The `\nDetected {n} speakers: {...}\n` line (without its surrounding
blank lines). -/
def detectedLine (speakers : List String) : String :=
  "Detected " ++ Nat.repr speakers.length ++ " speakers: " ++ joinSep ", " speakers

/-- `os.path.splitext(file_path)[1].lower()`: the lowercased extension the
script branches on. -/
def extOf (p : String) : String :=
  lowerStr (splitext p).2

/-- Outcome of one `diarize_audio` call: its return value or the exception it
raises, the temporary-file operation log, the standard-output lines, the path
the pipeline inference was applied to (if inference was reached), and the
token handed to `Pipeline.from_pretrained` (if loading was reached). -/
structure RunResult where
  result : Except String (List Segment)
  fsOps : List FsOp
  stdout : List String
  wavUsed : Option String
  tokenUsed : Option String
deriving Repr

/-- Embedding of `diarize_audio`: lowercase the extension; convert when it is
not `.wav`; load the pipeline; run inference; build segments with rounded
times; print the speaker summary and turn lines; unlink the temporary file
(only on this path — an exception from loading or inference skips it). -/
def diarize_audio (env : Env) (file_path : String) (hf_token : String) : RunResult :=
  let ext := extOf file_path
  let conv : Except String String × List FsOp :=
    if ext ≠ ".wav" then convert_to_wav env file_path
    else (Except.ok file_path, [])
  match conv with
  | (Except.error e, ops) =>
    { result := Except.error e, fsOps := ops, stdout := [],
      wavUsed := none, tokenUsed := none }
  | (Except.ok wav_path, ops) =>
    if env.loadOk = false then
      { result := Except.error "failed to load pretrained pipeline", fsOps := ops,
        stdout := [], wavUsed := none, tokenUsed := some hf_token }
    else if env.inferOk = false then
      { result := Except.error "diarization inference failed", fsOps := ops,
        stdout := [], wavUsed := some wav_path, tokenUsed := some hf_token }
    else
      let segments := env.tracks.map mkSegment
      let speakers := speakersOf segments
      let stdout :=
        ["", detectedLine speakers, "", "Speaker turns:"] ++ segments.map segLine
      let ops2 := ops ++ (if ext ≠ ".wav" then [FsOp.delete wav_path] else [])
      { result := Except.ok segments, fsOps := ops2, stdout := stdout,
        wavUsed := some wav_path, tokenUsed := some hf_token }

/-- Whether a modelled call raised an exception. -/
def isErr {ε α : Type} : Except ε α → Bool
  | Except.error _ => true
  | Except.ok _ => false

/-- Python truthiness test `not args.hf_token` on an optional string: true for
`None` and for the empty string. -/
def pyFalsy : Option String → Bool
  | none => true
  | some "" => true
  | some _ => false

/-- The three standard-error lines of the missing-token message. -/
def remediationLines : List String :=
  ["Error: Hugging Face token not provided.",
   "  • Set the HF_TOKEN environment variable, or",
   "  • pass --hf_token your_token_here"]

/-- Outcome of one `main` run: process exit code, standard-output lines,
standard-error lines, and the token `diarize_audio` was called with (if it
was called). -/
structure MainResult where
  exitCode : Nat
  stdout : List String
  stderr : List String
  usedToken : Option String
deriving DecidableEq, Repr

/-- Embedding of `main` after argument parsing: `flagToken` is the value of
`--hf_token` when supplied, `envToken` the value of the `HF_TOKEN` environment
variable when set (argparse uses it as the default for the flag), `fileExists` the
result of `os.path.isfile` on the positional argument. (The source function
is called `main`; that name is reserved for executable entry points in Lean.) -/
def mainFn (audio_file : String) (flagToken envToken : Option String)
    (fileExists : Bool) (env : Env) : MainResult :=
  let hf_token := flagToken.orElse (fun _ => envToken)
  if fileExists = false then
    { exitCode := 1, stdout := [],
      stderr := ["Error: audio file not found: " ++ audio_file], usedToken := none }
  else if pyFalsy hf_token then
    { exitCode := 1, stdout := [], stderr := remediationLines, usedToken := none }
  else
    let tok := hf_token.getD ""
    let r := diarize_audio env audio_file tok
    match r.result with
    | Except.ok _ =>
      { exitCode := 0, stdout := r.stdout, stderr := [], usedToken := some tok }
    | Except.error e =>
      { exitCode := 1, stdout := r.stdout,
        stderr := ["Error during diarization: " ++ e], usedToken := some tok }

/-! ### Helper lemmas: the code-point order on strings -/

theorem Char.toNat_inj_of_eq {a b : Char} (h : a.toNat = b.toNat) : a = b := by
  have hv : a.val = b.val := by
    apply UInt32.eq_of_toBitVec_eq
    apply BitVec.eq_of_toNat_eq
    exact h
  exact Char.eq_of_val_eq hv

theorem String.eq_of_data_eq {a b : String} (h : a.data = b.data) : a = b := by
  cases a; cases b; exact congrArg String.mk h

theorem charsLe_trans : ∀ a b c : List Char,
    charsLe a b = true → charsLe b c = true → charsLe a c = true
  | [], _, _, _, _ => rfl
  | _ :: _, [], _, h, _ => by simp [charsLe] at h
  | _ :: _, _ :: _, [], _, h => by simp [charsLe] at h
  | a :: as, b :: bs, c :: cs, h1, h2 => by
    simp only [charsLe] at h1 h2 ⊢
    rcases Nat.lt_trichotomy a.toNat b.toNat with hab | hab | hab
    · rcases Nat.lt_trichotomy b.toNat c.toNat with hbc | hbc | hbc
      · simp [show a.toNat < c.toNat by omega]
      · simp [show a.toNat < c.toNat by omega]
      · simp [show ¬ b.toNat < c.toNat by omega, show c.toNat < b.toNat from hbc] at h2
    · rcases Nat.lt_trichotomy b.toNat c.toNat with hbc | hbc | hbc
      · simp [show a.toNat < c.toNat by omega]
      · simp only [show ¬ a.toNat < b.toNat by omega, if_false,
          show ¬ b.toNat < a.toNat by omega] at h1
        simp only [show ¬ b.toNat < c.toNat by omega, if_false,
          show ¬ c.toNat < b.toNat by omega] at h2
        simp only [show ¬ a.toNat < c.toNat by omega, if_false,
          show ¬ c.toNat < a.toNat by omega]
        exact charsLe_trans as bs cs h1 h2
      · simp [show ¬ b.toNat < c.toNat by omega, show c.toNat < b.toNat from hbc] at h2
    · simp [show ¬ a.toNat < b.toNat by omega, show b.toNat < a.toNat from hab] at h1

theorem charsLe_total : ∀ a b : List Char, charsLe a b = true ∨ charsLe b a = true
  | [], _ => Or.inl rfl
  | _ :: _, [] => Or.inr rfl
  | a :: as, b :: bs => by
    simp only [charsLe]
    rcases Nat.lt_trichotomy a.toNat b.toNat with h | h | h
    · left; simp [h]
    · have h1 : ¬ a.toNat < b.toNat := by omega
      have h2 : ¬ b.toNat < a.toNat := by omega
      simp only [h1, h2, if_false]
      exact charsLe_total as bs
    · right; simp [h]

theorem charsLe_antisymm : ∀ a b : List Char,
    charsLe a b = true → charsLe b a = true → a = b
  | [], [], _, _ => rfl
  | [], _ :: _, _, h => by simp [charsLe] at h
  | _ :: _, [], h, _ => by simp [charsLe] at h
  | a :: as, b :: bs, h1, h2 => by
    simp only [charsLe] at h1 h2
    rcases Nat.lt_trichotomy a.toNat b.toNat with hab | hab | hab
    · simp [show ¬ b.toNat < a.toNat by omega, show a.toNat < b.toNat from hab] at h2
    · have e1 : ¬ a.toNat < b.toNat := by omega
      have e2 : ¬ b.toNat < a.toNat := by omega
      simp only [e1, e2, if_false] at h1 h2
      have hhead : a = b := Char.toNat_inj_of_eq hab
      have htail : as = bs := charsLe_antisymm as bs h1 h2
      rw [hhead, htail]
    · simp [show ¬ a.toNat < b.toNat by omega, show b.toNat < a.toNat from hab] at h1

instance : IsTrans String strLeP :=
  ⟨fun a b c h1 h2 => charsLe_trans a.data b.data c.data h1 h2⟩

instance : IsTotal String strLeP :=
  ⟨fun a b => charsLe_total a.data b.data⟩

instance : IsAntisymm String strLeP :=
  ⟨fun a b h1 h2 => String.eq_of_data_eq (charsLe_antisymm a.data b.data h1 h2)⟩

/-! ### Helper lemmas: round-half-to-even -/

theorem roundHalfEven_eq (q : ℚ) :
    roundHalfEven q =
      if q - (⌊q⌋ : ℚ) < 1 / 2 then ⌊q⌋
      else if 1 / 2 < q - (⌊q⌋ : ℚ) then ⌊q⌋ + 1
      else if ⌊q⌋ % 2 = 0 then ⌊q⌋ else ⌊q⌋ + 1 := rfl

theorem floor_le_roundHalfEven (q : ℚ) : ⌊q⌋ ≤ roundHalfEven q := by
  rw [roundHalfEven_eq]
  split_ifs <;> omega

theorem roundHalfEven_le_floor_add_one (q : ℚ) : roundHalfEven q ≤ ⌊q⌋ + 1 := by
  rw [roundHalfEven_eq]
  split_ifs <;> omega

theorem roundHalfEven_mono {a b : ℚ} (hab : a ≤ b) :
    roundHalfEven a ≤ roundHalfEven b := by
  rcases lt_or_le ⌊a⌋ ⌊b⌋ with h | h
  · calc roundHalfEven a ≤ ⌊a⌋ + 1 := roundHalfEven_le_floor_add_one a
      _ ≤ ⌊b⌋ := by omega
      _ ≤ roundHalfEven b := floor_le_roundHalfEven b
  · have hfe : ⌊a⌋ = ⌊b⌋ := le_antisymm (Int.floor_le_floor hab) h
    rw [roundHalfEven_eq, roundHalfEven_eq, hfe]
    split_ifs <;> first | omega | linarith

theorem abs_roundHalfEven_sub (q : ℚ) : |(roundHalfEven q : ℚ) - q| ≤ 1 / 2 := by
  have h1 : (⌊q⌋ : ℚ) ≤ q := Int.floor_le q
  have h2 : q < (⌊q⌋ : ℚ) + 1 := Int.lt_floor_add_one q
  rw [roundHalfEven_eq]
  split_ifs <;> rw [abs_le] <;> constructor <;> push_cast <;> linarith

theorem round2_mono {a b : ℚ} (hab : a ≤ b) : round2 a ≤ round2 b := by
  unfold round2
  have h : a * 100 ≤ b * 100 := by linarith
  have := roundHalfEven_mono h
  have hc : ((roundHalfEven (a * 100) : ℤ) : ℚ) ≤ ((roundHalfEven (b * 100) : ℤ) : ℚ) :=
    Int.cast_le.mpr this
  linarith

theorem abs_round2_sub (q : ℚ) : |round2 q - q| ≤ 1 / 200 := by
  have h : round2 q - q = ((roundHalfEven (q * 100) : ℚ) - q * 100) / 100 := by
    unfold round2; ring
  rw [h, abs_div, abs_of_pos (by norm_num : (0:ℚ) < 100)]
  linarith [abs_roundHalfEven_sub (q * 100)]

theorem round2_mul_hundred (q : ℚ) :
    round2 q * 100 = ((roundHalfEven (q * 100) : ℤ) : ℚ) := by
  unfold round2
  field_simp

/-! ### Helper lemmas: the control paths of `diarize_audio` -/

theorem diarize_nonwav_ffmpeg_fail (env : Env) (p tok : String)
    (hext : extOf p ≠ ".wav") (hff : env.ffmpegOk = false) :
    diarize_audio env p tok =
      { result := Except.error ("ffmpeg failed to convert " ++ p ++ " to WAV"),
        fsOps := [FsOp.create env.tmpName, FsOp.delete env.tmpName],
        stdout := [], wavUsed := none, tokenUsed := none } := by
  unfold diarize_audio convert_to_wav
  simp [hext, hff]

theorem diarize_nonwav_load_fail (env : Env) (p tok : String)
    (hext : extOf p ≠ ".wav") (hff : env.ffmpegOk = true)
    (hl : env.loadOk = false) :
    diarize_audio env p tok =
      { result := Except.error "failed to load pretrained pipeline",
        fsOps := [FsOp.create env.tmpName],
        stdout := [], wavUsed := none, tokenUsed := some tok } := by
  unfold diarize_audio convert_to_wav
  simp [hext, hff, hl]

theorem diarize_nonwav_infer_fail (env : Env) (p tok : String)
    (hext : extOf p ≠ ".wav") (hff : env.ffmpegOk = true)
    (hl : env.loadOk = true) (hi : env.inferOk = false) :
    diarize_audio env p tok =
      { result := Except.error "diarization inference failed",
        fsOps := [FsOp.create env.tmpName],
        stdout := [], wavUsed := some env.tmpName, tokenUsed := some tok } := by
  unfold diarize_audio convert_to_wav
  simp [hext, hff, hl, hi]

theorem diarize_nonwav_all_ok (env : Env) (p tok : String)
    (hext : extOf p ≠ ".wav") (hff : env.ffmpegOk = true)
    (hl : env.loadOk = true) (hi : env.inferOk = true) :
    diarize_audio env p tok =
      { result := Except.ok (env.tracks.map mkSegment),
        fsOps := [FsOp.create env.tmpName, FsOp.delete env.tmpName],
        stdout := ["", detectedLine (speakersOf (env.tracks.map mkSegment)), "",
                   "Speaker turns:"] ++ (env.tracks.map mkSegment).map segLine,
        wavUsed := some env.tmpName, tokenUsed := some tok } := by
  unfold diarize_audio convert_to_wav
  simp [hext, hff, hl, hi]

theorem diarize_wav_load_fail (env : Env) (p tok : String)
    (hext : extOf p = ".wav") (hl : env.loadOk = false) :
    diarize_audio env p tok =
      { result := Except.error "failed to load pretrained pipeline",
        fsOps := [], stdout := [], wavUsed := none, tokenUsed := some tok } := by
  unfold diarize_audio
  simp [hext, hl]

theorem diarize_wav_infer_fail (env : Env) (p tok : String)
    (hext : extOf p = ".wav") (hl : env.loadOk = true) (hi : env.inferOk = false) :
    diarize_audio env p tok =
      { result := Except.error "diarization inference failed",
        fsOps := [], stdout := [], wavUsed := some p, tokenUsed := some tok } := by
  unfold diarize_audio
  simp [hext, hl, hi]

theorem diarize_wav_all_ok (env : Env) (p tok : String)
    (hext : extOf p = ".wav") (hl : env.loadOk = true) (hi : env.inferOk = true) :
    diarize_audio env p tok =
      { result := Except.ok (env.tracks.map mkSegment),
        fsOps := [],
        stdout := ["", detectedLine (speakersOf (env.tracks.map mkSegment)), "",
                   "Speaker turns:"] ++ (env.tracks.map mkSegment).map segLine,
        wavUsed := some p, tokenUsed := some tok } := by
  unfold diarize_audio
  simp [hext, hl, hi]

/-! ### Helper lemmas: the operation log and concrete values -/

theorem liveFiles_nil : liveFiles [] = [] := rfl

theorem liveFiles_create (t : String) : liveFiles [FsOp.create t] = [t] := rfl

theorem liveFiles_create_delete (t : String) :
    liveFiles [FsOp.create t, FsOp.delete t] = [] := by
  simp [liveFiles]

theorem round2_zero : round2 0 = 0 := by
  norm_num [round2, roundHalfEven]

theorem round2_one : round2 1 = 1 := by
  norm_num [round2, roundHalfEven]

theorem round2_two : round2 2 = 2 := by
  norm_num [round2, roundHalfEven]

theorem round2_five : round2 5 = 5 := by
  norm_num [round2, roundHalfEven]

theorem round2_sevenHalves : round2 (7 / 2) = 7 / 2 := by
  norm_num [round2, roundHalfEven]

theorem fmtFloat2_zero : fmtFloat2 0 = "0.0" := by
  unfold fmtFloat2
  rw [show (⌊(0 : ℚ) * 100⌋ : ℤ) = 0 by norm_num]
  decide

theorem fmtFloat2_one : fmtFloat2 1 = "1.0" := by
  unfold fmtFloat2
  rw [show (⌊(1 : ℚ) * 100⌋ : ℤ) = 100 by norm_num]
  decide

theorem fmtFloat2_two : fmtFloat2 2 = "2.0" := by
  unfold fmtFloat2
  rw [show (⌊(2 : ℚ) * 100⌋ : ℤ) = 200 by norm_num]
  decide

theorem fmtFloat2_sevenHalves : fmtFloat2 (7 / 2) = "3.5" := by
  unfold fmtFloat2
  rw [show (⌊(7 / 2 : ℚ) * 100⌋ : ℤ) = 350 by norm_num]
  decide

/-- On every run whose `diarize_audio` call returns normally, the returned
segments are the rounded tracks and standard output is the full block the
script prints. -/
theorem diarize_isOk_run (env : Env) (p tok : String)
    (h : (diarize_audio env p tok).result.isOk = true) :
    (diarize_audio env p tok).result = Except.ok (env.tracks.map mkSegment) ∧
    (diarize_audio env p tok).stdout =
      ["", detectedLine (speakersOf (env.tracks.map mkSegment)), "",
       "Speaker turns:"] ++ (env.tracks.map mkSegment).map segLine := by
  by_cases hext : extOf p = ".wav"
  · cases hl : env.loadOk with
    | false => rw [diarize_wav_load_fail env p tok hext hl] at h; simp [Except.isOk, Except.toBool] at h
    | true =>
      cases hi : env.inferOk with
      | false => rw [diarize_wav_infer_fail env p tok hext hl hi] at h; simp [Except.isOk, Except.toBool] at h
      | true => rw [diarize_wav_all_ok env p tok hext hl hi]; exact ⟨rfl, rfl⟩
  · cases hff : env.ffmpegOk with
    | false => rw [diarize_nonwav_ffmpeg_fail env p tok hext hff] at h; simp [Except.isOk, Except.toBool] at h
    | true =>
      cases hl : env.loadOk with
      | false => rw [diarize_nonwav_load_fail env p tok hext hff hl] at h; simp [Except.isOk, Except.toBool] at h
      | true =>
        cases hi : env.inferOk with
        | false =>
          rw [diarize_nonwav_infer_fail env p tok hext hff hl hi] at h
          simp [Except.isOk, Except.toBool] at h
        | true => rw [diarize_nonwav_all_ok env p tok hext hff hl hi]; exact ⟨rfl, rfl⟩

/-! ### Claim theorems -/

/-- C1 counterexample: on the valid non-WAV input `sample.m4a` with a
successful conversion, a pipeline-load exception exits `diarize_audio` with
the temporary file still on disk — the claim that the temporary file is
removed on every exit path fails. -/
theorem C1_counterexample :
    (diarize_audio ⟨"/tmp/tmpc1.wav", true, false, true, []⟩ "sample.m4a" "tok").result.isOk
        = false ∧
    liveFiles (diarize_audio ⟨"/tmp/tmpc1.wav", true, false, true, []⟩ "sample.m4a" "tok").fsOps
        = ["/tmp/tmpc1.wav"] := by
  rw [diarize_nonwav_load_fail ⟨"/tmp/tmpc1.wav", true, false, true, []⟩ "sample.m4a" "tok"
      (by decide) rfl rfl]
  exact ⟨rfl, rfl⟩

/-- C1 (amended): for every valid non-WAV input, the temporary waveform file
is removed when diarization succeeds and when the ffmpeg conversion itself
fails; but when pipeline loading or inference raises after a successful
conversion, the temporary file is not removed. -/
theorem C1_tempfile_cleanup (env : Env) (p tok : String) (hext : extOf p ≠ ".wav") :
    ((diarize_audio env p tok).result.isOk = true →
      liveFiles (diarize_audio env p tok).fsOps = []) ∧
    (env.ffmpegOk = false →
      liveFiles (diarize_audio env p tok).fsOps = []) ∧
    (env.ffmpegOk = true → (env.loadOk = false ∨ env.inferOk = false) →
      liveFiles (diarize_audio env p tok).fsOps = [env.tmpName]) := by
  cases hff : env.ffmpegOk with
  | false =>
    rw [diarize_nonwav_ffmpeg_fail env p tok hext hff]
    exact ⟨fun h => Bool.noConfusion h, fun _ => liveFiles_create_delete _,
           fun hc _ => Bool.noConfusion hc⟩
  | true =>
    cases hl : env.loadOk with
    | false =>
      rw [diarize_nonwav_load_fail env p tok hext hff hl]
      exact ⟨fun h => Bool.noConfusion h, fun hc => Bool.noConfusion hc,
             fun _ _ => liveFiles_create _⟩
    | true =>
      cases hi : env.inferOk with
      | false =>
        rw [diarize_nonwav_infer_fail env p tok hext hff hl hi]
        exact ⟨fun h => Bool.noConfusion h, fun hc => Bool.noConfusion hc,
               fun _ _ => liveFiles_create _⟩
      | true =>
        rw [diarize_nonwav_all_ok env p tok hext hff hl hi]
        refine ⟨fun _ => liveFiles_create_delete _, fun hc => Bool.noConfusion hc,
               fun _ hor => ?_⟩
        rcases hor with h | h <;> exact Bool.noConfusion h

/-- C1 witness: on a concrete non-WAV input, the amended lifecycle holds: the
all-success run leaves no temporary file, and so does a failed conversion. -/
theorem C1_witness :
    ((diarize_audio ⟨"/tmp/tw1.wav", true, true, true, []⟩ "a.m4a" "tk").result.isOk = true →
      liveFiles (diarize_audio ⟨"/tmp/tw1.wav", true, true, true, []⟩ "a.m4a" "tk").fsOps = []) ∧
    ((⟨"/tmp/tw1.wav", true, true, true, []⟩ : Env).ffmpegOk = false →
      liveFiles (diarize_audio ⟨"/tmp/tw1.wav", true, true, true, []⟩ "a.m4a" "tk").fsOps = []) ∧
    ((⟨"/tmp/tw1.wav", true, true, true, []⟩ : Env).ffmpegOk = true →
      ((⟨"/tmp/tw1.wav", true, true, true, []⟩ : Env).loadOk = false ∨
       (⟨"/tmp/tw1.wav", true, true, true, []⟩ : Env).inferOk = false) →
      liveFiles (diarize_audio ⟨"/tmp/tw1.wav", true, true, true, []⟩ "a.m4a" "tk").fsOps =
        [(⟨"/tmp/tw1.wav", true, true, true, []⟩ : Env).tmpName]) :=
  C1_tempfile_cleanup ⟨"/tmp/tw1.wav", true, true, true, []⟩ "a.m4a" "tk" (by decide)

/-- C3: for an input whose lowercased extension is `.wav`, `diarize_audio`
performs no temporary-file operation at all, and whenever the pipeline is
invoked it is invoked on the input path itself. -/
theorem C3_wav_no_temp (env : Env) (p tok : String) (hext : extOf p = ".wav") :
    (diarize_audio env p tok).fsOps = [] ∧
    (env.loadOk = true → (diarize_audio env p tok).wavUsed = some p) := by
  cases hl : env.loadOk with
  | false =>
    rw [diarize_wav_load_fail env p tok hext hl]
    exact ⟨rfl, fun h => Bool.noConfusion h⟩
  | true =>
    cases hi : env.inferOk with
    | false => rw [diarize_wav_infer_fail env p tok hext hl hi]; exact ⟨rfl, fun _ => rfl⟩
    | true => rw [diarize_wav_all_ok env p tok hext hl hi]; exact ⟨rfl, fun _ => rfl⟩

/-- C3 witness: a concrete `.wav` run creates and deletes nothing and hands
the input path itself to the pipeline. -/
theorem C3_witness :
    (diarize_audio ⟨"/tmp/t3.wav", true, true, true, []⟩ "clip.wav" "tk").fsOps = [] ∧
    ((⟨"/tmp/t3.wav", true, true, true, []⟩ : Env).loadOk = true →
      (diarize_audio ⟨"/tmp/t3.wav", true, true, true, []⟩ "clip.wav" "tk").wavUsed
        = some "clip.wav") :=
  C3_wav_no_temp ⟨"/tmp/t3.wav", true, true, true, []⟩ "clip.wav" "tk" (by decide)

/-- C7: when ffmpeg exits non-zero, `convert_to_wav` deletes the temporary
file it created and raises an error naming the input path; no temporary file
survives. -/
theorem C7_ffmpeg_failure (env : Env) (p : String) (hff : env.ffmpegOk = false) :
    convert_to_wav env p =
      (Except.error ("ffmpeg failed to convert " ++ p ++ " to WAV"),
       [FsOp.create env.tmpName, FsOp.delete env.tmpName]) ∧
    liveFiles (convert_to_wav env p).2 = [] := by
  have h : convert_to_wav env p =
      (Except.error ("ffmpeg failed to convert " ++ p ++ " to WAV"),
       [FsOp.create env.tmpName, FsOp.delete env.tmpName]) := by
    simp [convert_to_wav, hff]
  exact ⟨h, by rw [h]; exact liveFiles_create_delete _⟩

/-- C7 witness: a concrete failing conversion raises the error naming the
input and leaves no temporary file. -/
theorem C7_witness :
    convert_to_wav ⟨"/tmp/t7.wav", false, true, true, []⟩ "x.mp3" =
      (Except.error ("ffmpeg failed to convert " ++ "x.mp3" ++ " to WAV"),
       [FsOp.create "/tmp/t7.wav", FsOp.delete "/tmp/t7.wav"]) ∧
    liveFiles (convert_to_wav ⟨"/tmp/t7.wav", false, true, true, []⟩ "x.mp3").2 = [] :=
  C7_ffmpeg_failure ⟨"/tmp/t7.wav", false, true, true, []⟩ "x.mp3" rfl

/-- C2: after argument parsing, the program exits with code 1 exactly when
the input file is missing, the resolved token is falsy, or the
conversion/diarization call raises; in every other run it exits with code 0. -/
theorem C2_exit_code (f : String) (flagToken envToken : Option String)
    (fileExists : Bool) (env : Env) :
    (mainFn f flagToken envToken fileExists env).exitCode =
      if fileExists = false
          ∨ pyFalsy (flagToken.orElse fun _ => envToken) = true
          ∨ isErr (diarize_audio env f ((flagToken.orElse fun _ => envToken).getD "")).result
              = true
        then 1 else 0 := by
  unfold mainFn
  cases fileExists with
  | false => simp
  | true =>
    cases hf : pyFalsy (flagToken.orElse fun _ => envToken) with
    | true => simp [hf]
    | false =>
      cases hres : (diarize_audio env f ((flagToken.orElse fun _ => envToken).getD "")).result with
      | ok segs => simp [hf, hres, isErr]
      | error e => simp [hf, hres, isErr]

/-- C6: with the file check passed, the token handed to the pipeline comes
from the `--hf_token` flag when supplied, otherwise from the `HF_TOKEN`
environment variable; when both are absent the program exits with code 1
printing the remediation message on standard error. -/
theorem C6_token_source (f : String) (flag envTok : Option String) (env : Env) :
    (∀ t : String, flag = some t → pyFalsy (some t) = false →
      (mainFn f flag envTok true env).usedToken = some t) ∧
    (∀ t : String, flag = none → envTok = some t → pyFalsy (some t) = false →
      (mainFn f flag envTok true env).usedToken = some t) ∧
    (flag = none → envTok = none →
      (mainFn f flag envTok true env).exitCode = 1 ∧
      (mainFn f flag envTok true env).stderr = remediationLines) := by
  refine ⟨?_, ?_, ?_⟩
  · intro t hflag hfal
    subst hflag
    unfold mainFn
    have ho : (some t).orElse (fun _ => envTok) = some t := rfl
    rw [ho]
    cases hres : (diarize_audio env f t).result with
    | ok segs => simp [hfal, hres]
    | error e => simp [hfal, hres]
  · intro t hflag henv hfal
    subst hflag; subst henv
    unfold mainFn
    have ho : (none : Option String).orElse (fun _ => some t) = some t := rfl
    rw [ho]
    cases hres : (diarize_audio env f t).result with
    | ok segs => simp [hfal, hres]
    | error e => simp [hfal, hres]
  · intro hflag henv
    subst hflag; subst henv
    unfold mainFn
    simp [pyFalsy]

/-- C6 witness: concrete runs take the token from the flag, from the
environment variable when the flag is absent, and fail with the remediation
message when both are absent. -/
theorem C6_witness :
    (mainFn "a.wav" (some "tk") none true ⟨"/tmp/t6.wav", true, true, true, []⟩).usedToken
      = some "tk" ∧
    (mainFn "a.wav" none (some "te") true ⟨"/tmp/t6.wav", true, true, true, []⟩).usedToken
      = some "te" ∧
    (mainFn "a.wav" none none true ⟨"/tmp/t6.wav", true, true, true, []⟩).exitCode = 1 ∧
    (mainFn "a.wav" none none true ⟨"/tmp/t6.wav", true, true, true, []⟩).stderr
      = remediationLines := by
  refine ⟨?_, ?_, ?_, ?_⟩
  · exact (C6_token_source "a.wav" (some "tk") none
      ⟨"/tmp/t6.wav", true, true, true, []⟩).1 "tk" rfl (by decide)
  · exact (C6_token_source "a.wav" none (some "te")
      ⟨"/tmp/t6.wav", true, true, true, []⟩).2.1 "te" rfl rfl (by decide)
  · exact ((C6_token_source "a.wav" none none
      ⟨"/tmp/t6.wav", true, true, true, []⟩).2.2 rfl rfl).1
  · exact ((C6_token_source "a.wav" none none
      ⟨"/tmp/t6.wav", true, true, true, []⟩).2.2 rfl rfl).2

/-- C10: an empty-string token — whether passed as `--hf_token ""` or as an
empty `HF_TOKEN` environment variable — behaves exactly like an absent token:
the truthiness check fails, the program exits with code 1 and prints the
remediation message. -/
theorem C10_empty_token (f : String) (envTok : Option String) (fe : Bool) (env : Env) :
    mainFn f (some "") envTok fe env = mainFn f none none fe env ∧
    mainFn f none (some "") fe env = mainFn f none none fe env ∧
    (fe = true → (mainFn f (some "") envTok fe env).exitCode = 1 ∧
      (mainFn f (some "") envTok fe env).stderr = remediationLines) := by
  unfold mainFn
  cases fe <;> simp [pyFalsy]

/-- C10 witness: a concrete run with an empty flag token (and a distinct
non-empty environment token) coincides with the tokenless run and exits 1
with the remediation message. -/
theorem C10_witness :
    mainFn "a.wav" (some "") (some "real") true ⟨"/tmp/ta.wav", true, true, true, []⟩
      = mainFn "a.wav" none none true ⟨"/tmp/ta.wav", true, true, true, []⟩ ∧
    mainFn "a.wav" none (some "") true ⟨"/tmp/ta.wav", true, true, true, []⟩
      = mainFn "a.wav" none none true ⟨"/tmp/ta.wav", true, true, true, []⟩ ∧
    (mainFn "a.wav" (some "") (some "real") true
        ⟨"/tmp/ta.wav", true, true, true, []⟩).exitCode = 1 ∧
    (mainFn "a.wav" (some "") (some "real") true
        ⟨"/tmp/ta.wav", true, true, true, []⟩).stderr = remediationLines := by
  obtain ⟨h1, h2, h3⟩ := C10_empty_token "a.wav" (some "real") true
    ⟨"/tmp/ta.wav", true, true, true, []⟩
  exact ⟨h1, h2, (h3 rfl).1, (h3 rfl).2⟩

/-- C5: on every successful run, the printed speaker count is the number of
distinct speaker labels among the yielded tracks, each turn line shows the
track times rounded (the printed value differs from the raw time by at most
half of one hundredth), in the format `  <speaker>: <start>s – <end>s`. -/
theorem C5_count_and_rounding (env : Env) (p tok : String)
    (hok : (diarize_audio env p tok).result.isOk = true) :
    ((diarize_audio env p tok).stdout)[1]? =
        some (detectedLine (speakersOf (env.tracks.map mkSegment))) ∧
    (speakersOf (env.tracks.map mkSegment)).length
        = ((env.tracks.map Turn.speaker).dedup).length ∧
    (∀ i : Nat, ∀ t : Turn, env.tracks[i]? = some t →
      ((diarize_audio env p tok).stdout)[4 + i]? =
        some ("  " ++ t.speaker ++ ": " ++ fmtFloat2 (round2 t.start) ++ "s – "
              ++ fmtFloat2 (round2 t.stop) ++ "s")) ∧
    (∀ t : Turn, |round2 t.start - t.start| ≤ 1 / 200 ∧ |round2 t.stop - t.stop| ≤ 1 / 200) := by
  obtain ⟨hres, hout⟩ := diarize_isOk_run env p tok hok
  refine ⟨by rw [hout]; rfl, ?_, ?_, fun t => ⟨abs_round2_sub t.start, abs_round2_sub t.stop⟩⟩
  · have h1 : (env.tracks.map mkSegment).map Segment.speaker = env.tracks.map Turn.speaker := by
      rw [List.map_map]; rfl
    unfold speakersOf pySorted
    rw [h1]
    exact (List.perm_insertionSort _ _).length_eq
  · intro i t ht
    rw [hout]
    rw [List.getElem?_append_right (by simp)]
    have hidx : 4 + i - (["", detectedLine (speakersOf (env.tracks.map mkSegment)), "",
        "Speaker turns:"] : List String).length = i := by simp
    rw [hidx, List.map_map, List.getElem?_map, ht]
    simp [segLine, mkSegment, Function.comp]

/-- C5 witness: with two turns for speakers `B` then `A`, the run reports 2
speakers and prints the second turn with two-decimal times. -/
theorem C5_witness :
    ((diarize_audio ⟨"/tmp/t5.wav", true, true, true,
        [⟨"B", 1, 2⟩, ⟨"A", 0, 1⟩]⟩ "c.wav" "t").stdout)[1]? =
      some "Detected 2 speakers: A, B" ∧
    ((diarize_audio ⟨"/tmp/t5.wav", true, true, true,
        [⟨"B", 1, 2⟩, ⟨"A", 0, 1⟩]⟩ "c.wav" "t").stdout)[4 + 1]? =
      some "  A: 0.0s – 1.0s" := by
  obtain ⟨h1, h2, h3, h4⟩ := C5_count_and_rounding
    ⟨"/tmp/t5.wav", true, true, true, [⟨"B", 1, 2⟩, ⟨"A", 0, 1⟩]⟩ "c.wav" "t"
    (by rw [diarize_wav_all_ok _ _ _ (by decide) rfl rfl]; rfl)
  constructor
  · rw [h1]
    rw [show speakersOf (List.map mkSegment [⟨"B", (1:ℚ), 2⟩, ⟨"A", 0, 1⟩]) = ["A", "B"]
        from by decide]
    decide
  · have h5 := h3 1 ⟨"A", 0, 1⟩ rfl
    rw [h5]
    rw [round2_zero, round2_one, fmtFloat2_zero, fmtFloat2_one]
    decide

/-- C9: on every successful run, the speakers in the `Detected` line are the
distinct labels in ascending code-point (lexicographic) order, and the list
is independent of the order in which the pipeline yields the turns; the
sortedness is a fact about the code, stated by no spec sentence. -/
theorem C9_sorted_speakers (env : Env) (p tok : String)
    (hok : (diarize_audio env p tok).result.isOk = true) :
    ((diarize_audio env p tok).stdout)[1]? =
        some (detectedLine (speakersOf (env.tracks.map mkSegment))) ∧
    List.Sorted strLeP (speakersOf (env.tracks.map mkSegment)) ∧
    (∀ l : List Turn, l.Perm env.tracks →
      speakersOf (l.map mkSegment) = speakersOf (env.tracks.map mkSegment)) := by
  obtain ⟨hres, hout⟩ := diarize_isOk_run env p tok hok
  refine ⟨by rw [hout]; rfl, List.sorted_insertionSort strLeP _, ?_⟩
  intro l hperm
  unfold speakersOf pySorted
  have h2 := (((hperm.map mkSegment).map Segment.speaker)).dedup
  exact List.eq_of_perm_of_sorted
    ((List.perm_insertionSort _ _).trans (h2.trans (List.perm_insertionSort _ _).symm))
    (List.sorted_insertionSort _ _) (List.sorted_insertionSort _ _)

/-- C9 witness: with turns yielded for `B` before `A`, the `Detected` line
lists `A, B` in sorted order, and swapping the two turns leaves the speaker
list unchanged. -/
theorem C9_witness :
    ((diarize_audio ⟨"/tmp/t9.wav", true, true, true,
        [⟨"B", 0, 1⟩, ⟨"A", 1, 2⟩]⟩ "d.wav" "t").stdout)[1]? =
      some "Detected 2 speakers: A, B" ∧
    List.Sorted strLeP (speakersOf (List.map mkSegment [⟨"B", 0, 1⟩, ⟨"A", 1, 2⟩])) ∧
    speakersOf (List.map mkSegment [⟨"A", 1, 2⟩, ⟨"B", 0, 1⟩])
      = speakersOf (List.map mkSegment [⟨"B", 0, 1⟩, ⟨"A", 1, 2⟩]) := by
  obtain ⟨h1, h2, h3⟩ := C9_sorted_speakers
    ⟨"/tmp/t9.wav", true, true, true, [⟨"B", 0, 1⟩, ⟨"A", 1, 2⟩]⟩ "d.wav" "t"
    (by rw [diarize_wav_all_ok _ _ _ (by decide) rfl rfl]; rfl)
  refine ⟨?_, h2, h3 _ (List.Perm.swap (⟨"B", 0, 1⟩ : Turn) (⟨"A", 1, 2⟩ : Turn) [])⟩
  rw [h1]
  rw [show speakersOf (List.map mkSegment [⟨"B", (0:ℚ), 1⟩, ⟨"A", 1, 2⟩]) = ["A", "B"]
      from by decide]
  decide

/-- C8 counterexample: the code nowhere enforces the claimed invariants: a
pipeline output whose single turn has `end < start` and an empty speaker
label flows into the returned segments unchanged, so the claim fails for
that pipeline output. -/
theorem C8_counterexample :
    ∃ segs : List Segment,
      (diarize_audio ⟨"/tmp/t8.wav", true, true, true, [⟨"", 5, 1⟩]⟩ "x.wav" "t").result
        = Except.ok segs ∧
      ∃ s ∈ segs, s.stop < s.start ∧ s.speaker = "" := by
  refine ⟨[mkSegment ⟨"", 5, 1⟩], ?_, mkSegment ⟨"", 5, 1⟩, by simp, ?_, rfl⟩
  · rw [diarize_wav_all_ok _ _ _ (by decide) rfl rfl]
    rfl
  · show round2 1 < round2 5
    rw [round2_one, round2_five]; norm_num

/-- C8 (amended): provided every turn the pipeline yields satisfies
`end ≥ start` and has a non-empty speaker label, every segment record
produced in the run satisfies `end ≥ start` (rounding is monotone) and has a
non-empty speaker label. -/
theorem C8_segment_invariants (env : Env) (p tok : String) (segs : List Segment)
    (hres : (diarize_audio env p tok).result = Except.ok segs)
    (hgood : ∀ t ∈ env.tracks, t.start ≤ t.stop ∧ t.speaker ≠ "") :
    ∀ s ∈ segs, s.start ≤ s.stop ∧ s.speaker ≠ "" := by
  have hok : (diarize_audio env p tok).result.isOk = true := by rw [hres]; rfl
  obtain ⟨hres2, _⟩ := diarize_isOk_run env p tok hok
  have hsegs : segs = env.tracks.map mkSegment := Except.ok.inj (hres.symm.trans hres2)
  intro s hs
  rw [hsegs] at hs
  obtain ⟨t, ht, rfl⟩ := List.mem_map.mp hs
  obtain ⟨hst, hsp⟩ := hgood t ht
  exact ⟨round2_mono hst, by simpa [mkSegment] using hsp⟩

/-- C8 witness: a concrete well-formed run produces a segment with ordered
times and a non-empty label. -/
theorem C8_witness :
    (mkSegment ⟨"S", 1, 2⟩).start ≤ (mkSegment ⟨"S", 1, 2⟩).stop ∧
    (mkSegment ⟨"S", 1, 2⟩).speaker ≠ "" := by
  have h := C8_segment_invariants ⟨"/tmp/t8w.wav", true, true, true, [⟨"S", 1, 2⟩]⟩
    "y.wav" "t" [mkSegment ⟨"S", 1, 2⟩]
    (by rw [diarize_wav_all_ok _ _ _ (by decide) rfl rfl]; rfl)
    (by intro t ht; simp at ht; subst ht; exact ⟨by norm_num, by decide⟩)
  exact h (mkSegment ⟨"S", 1, 2⟩) (by simp)

/-- C4: end-to-end on `sample.m4a` with a succeeding transcoder and a pipeline
yielding one turn (`SPEAKER_00`, 0.00–3.50 s): the run exits 0 and standard
output contains the line `Detected 1 speakers: SPEAKER_00` followed (after the
blank line and the `Speaker turns:` header the script also prints) by the turn
line `  SPEAKER_00: 0.0s – 3.5s` in the format `  <speaker>: <start>s – <end>s`. -/
theorem C4_end_to_end :
    mainFn "sample.m4a" (some "hf_tok") none true
        ⟨"/tmp/t4.wav", true, true, true, [⟨"SPEAKER_00", 0, 7 / 2⟩]⟩ =
      ⟨0, ["", "Detected 1 speakers: SPEAKER_00", "", "Speaker turns:",
           "  SPEAKER_00: 0.0s – 3.5s"], [], some "hf_tok"⟩ := by
  have hseg : segLine (mkSegment ⟨"SPEAKER_00", 0, 7 / 2⟩) = "  SPEAKER_00: 0.0s – 3.5s" := by
    simp only [segLine, mkSegment]
    rw [round2_zero, round2_sevenHalves, fmtFloat2_zero, fmtFloat2_sevenHalves]
    decide
  have hdet : detectedLine (speakersOf [mkSegment ⟨"SPEAKER_00", (0:ℚ), 7 / 2⟩])
      = "Detected 1 speakers: SPEAKER_00" := by decide
  have hrun := diarize_nonwav_all_ok ⟨"/tmp/t4.wav", true, true, true,
      [⟨"SPEAKER_00", 0, 7 / 2⟩]⟩ "sample.m4a" "hf_tok" (by decide) rfl rfl rfl
  unfold mainFn
  simp only [show ((some "hf_tok").orElse fun _ => (none : Option String)) = some "hf_tok"
      from rfl, show ((some "hf_tok").getD "") = "hf_tok" from rfl,
    show pyFalsy (some "hf_tok") = false from rfl]
  rw [hrun]
  rw [if_neg (show ¬ (true = false) by decide), if_neg (show ¬ (false = true) by decide)]
  simp only [List.map_cons, List.map_nil, hseg, hdet]
  decide
